import Mathlib

/-!
Verification development for the TiyendeVendor storage engine and HTTP API
layer. The definitions below are a shallow embedding of the in-memory
storage class (MemStorage), the shared entity schema, and the Express
route handlers of the repository. Timestamps are modelled as integers
(milliseconds since the epoch, as produced by Date.getTime), monetary and
double-precision amounts as rationals, and the JS Map as an
insertion-ordered association list. The JS stable Array.sort with a
numeric comparator is modelled by insertion sort, which is also stable
and therefore produces the identical output list.
-/

namespace Tiyende

/-- Insertion-ordered finite map from numeric keys, modelling the JS Map:
iteration follows insertion order, and setting an existing key replaces
the value in place without moving the entry. -/
abbrev NMap (α : Type) : Type := List (Nat × α)

namespace NMap

/-- Map.get: the value stored under a key, if present. -/
def get {α : Type} : NMap α → Nat → Option α
  | [], _ => none
  | p :: ps, k => if p.1 = k then some p.2 else get ps k

/-- Map.set: replace the entry in place when the key is present, otherwise
append the new entry at the end, as the JS Map does. -/
def set {α : Type} : NMap α → Nat → α → NMap α
  | [], k, v => [(k, v)]
  | p :: ps, k, v => if p.1 = k then (k, v) :: ps else p :: set ps k v

/-- Map.delete: remove every entry with the given key. -/
def del {α : Type} (m : NMap α) (k : Nat) : NMap α :=
  m.filter (fun p => p.1 ≠ k)

/-- Map.has, used for the boolean result of Map.delete. -/
def hasKey {α : Type} (m : NMap α) (k : Nat) : Bool :=
  (get m k).isSome

/-- Array.from(map.values()): the stored values in insertion order. -/
def values {α : Type} (m : NMap α) : List α :=
  m.map (fun p => p.2)

end NMap

/-! Entity records, translated from the shared schema (pgTable column
lists). Nullable columns become Option fields; the id is the numeric
primary key; createdAt is the creation timestamp. -/

structure Vendor where
  id : Nat
  username : String
  password : String
  name : String
  email : String
  phone : Option String
  companyName : Option String
  address : Option String
  city : Option String
  profileImage : Option String
  createdAt : Int
deriving DecidableEq

structure Route where
  id : Nat
  vendorId : Nat
  origin : String
  destination : String
  distance : Option ℚ
  duration : Option Int
  price : ℚ
  isActive : Bool
  hasStops : Bool
  createdAt : Int
deriving DecidableEq

structure Bus where
  id : Nat
  vendorId : Nat
  name : String
  registrationNumber : String
  capacity : Int
  type : Option String
  isActive : Bool
  createdAt : Int
deriving DecidableEq

structure Trip where
  id : Nat
  vendorId : Nat
  routeId : Nat
  busId : Nat
  departureTime : Int
  arrivalTime : Int
  status : String
  availableSeats : Int
  price : ℚ
  createdAt : Int
deriving DecidableEq

structure Customer where
  id : Nat
  name : String
  email : String
  phone : Option String
  createdAt : Int
deriving DecidableEq

structure Booking where
  id : Nat
  tripId : Nat
  customerId : Nat
  vendorId : Nat
  seatCount : Int
  status : String
  totalPrice : ℚ
  bookingDate : Int
  createdAt : Int
deriving DecidableEq

structure Payment where
  id : Nat
  bookingId : Nat
  vendorId : Nat
  amount : ℚ
  paymentMethod : String
  status : String
  transactionId : Option String
  paymentDate : Int
  createdAt : Int
deriving DecidableEq

/-! Insert shapes: the create input types, which omit id and createdAt
(insert schemas are createInsertSchema(table).omit with id and createdAt). -/

structure InsertVendor where
  username : String
  password : String
  name : String
  email : String
  phone : Option String
  companyName : Option String
  address : Option String
  city : Option String
  profileImage : Option String
deriving DecidableEq

structure InsertRoute where
  vendorId : Nat
  origin : String
  destination : String
  distance : Option ℚ
  duration : Option Int
  price : ℚ
  isActive : Bool
  hasStops : Bool
deriving DecidableEq

structure InsertBus where
  vendorId : Nat
  name : String
  registrationNumber : String
  capacity : Int
  type : Option String
  isActive : Bool
deriving DecidableEq

structure InsertTrip where
  vendorId : Nat
  routeId : Nat
  busId : Nat
  departureTime : Int
  arrivalTime : Int
  status : String
  availableSeats : Int
  price : ℚ
deriving DecidableEq

structure InsertCustomer where
  name : String
  email : String
  phone : Option String
deriving DecidableEq

structure InsertBooking where
  tripId : Nat
  customerId : Nat
  vendorId : Nat
  seatCount : Int
  status : String
  totalPrice : ℚ
  bookingDate : Int
deriving DecidableEq

structure InsertPayment where
  bookingId : Nat
  vendorId : Nat
  amount : ℚ
  paymentMethod : String
  status : String
  transactionId : Option String
  paymentDate : Int
deriving DecidableEq

/-! Update payloads: the TS update argument type in which every field of
the entity is optional, id and createdAt included. A field that is none
is absent from the payload; a field that is some overrides the stored
value in the spread-merge of the update methods. -/

structure VendorPatch where
  id : Option Nat := none
  username : Option String := none
  password : Option String := none
  name : Option String := none
  email : Option String := none
  phone : Option (Option String) := none
  companyName : Option (Option String) := none
  address : Option (Option String) := none
  city : Option (Option String) := none
  profileImage : Option (Option String) := none
  createdAt : Option Int := none
deriving DecidableEq

structure RoutePatch where
  id : Option Nat := none
  vendorId : Option Nat := none
  origin : Option String := none
  destination : Option String := none
  distance : Option (Option ℚ) := none
  duration : Option (Option Int) := none
  price : Option ℚ := none
  isActive : Option Bool := none
  hasStops : Option Bool := none
  createdAt : Option Int := none
deriving DecidableEq

structure BusPatch where
  id : Option Nat := none
  vendorId : Option Nat := none
  name : Option String := none
  registrationNumber : Option String := none
  capacity : Option Int := none
  type : Option (Option String) := none
  isActive : Option Bool := none
  createdAt : Option Int := none
deriving DecidableEq

structure TripPatch where
  id : Option Nat := none
  vendorId : Option Nat := none
  routeId : Option Nat := none
  busId : Option Nat := none
  departureTime : Option Int := none
  arrivalTime : Option Int := none
  status : Option String := none
  availableSeats : Option Int := none
  price : Option ℚ := none
  createdAt : Option Int := none
deriving DecidableEq

/-- Spread-merge of an update payload over a stored Vendor: every field
present in the payload overrides the stored field, id and createdAt
included, exactly as the object spread in updateVendor does. -/
def Vendor.merge (r : Vendor) (u : VendorPatch) : Vendor where
  id := u.id.getD r.id
  username := u.username.getD r.username
  password := u.password.getD r.password
  name := u.name.getD r.name
  email := u.email.getD r.email
  phone := u.phone.getD r.phone
  companyName := u.companyName.getD r.companyName
  address := u.address.getD r.address
  city := u.city.getD r.city
  profileImage := u.profileImage.getD r.profileImage
  createdAt := u.createdAt.getD r.createdAt

/-- Spread-merge of an update payload over a stored Route, as in
updateRoute. -/
def Route.merge (r : Route) (u : RoutePatch) : Route where
  id := u.id.getD r.id
  vendorId := u.vendorId.getD r.vendorId
  origin := u.origin.getD r.origin
  destination := u.destination.getD r.destination
  distance := u.distance.getD r.distance
  duration := u.duration.getD r.duration
  price := u.price.getD r.price
  isActive := u.isActive.getD r.isActive
  hasStops := u.hasStops.getD r.hasStops
  createdAt := u.createdAt.getD r.createdAt

/-- Spread-merge of an update payload over a stored Bus, as in updateBus. -/
def Bus.merge (r : Bus) (u : BusPatch) : Bus where
  id := u.id.getD r.id
  vendorId := u.vendorId.getD r.vendorId
  name := u.name.getD r.name
  registrationNumber := u.registrationNumber.getD r.registrationNumber
  capacity := u.capacity.getD r.capacity
  type := u.type.getD r.type
  isActive := u.isActive.getD r.isActive
  createdAt := u.createdAt.getD r.createdAt

/-- Spread-merge of an update payload over a stored Trip, as in
updateTrip. -/
def Trip.merge (r : Trip) (u : TripPatch) : Trip where
  id := u.id.getD r.id
  vendorId := u.vendorId.getD r.vendorId
  routeId := u.routeId.getD r.routeId
  busId := u.busId.getD r.busId
  departureTime := u.departureTime.getD r.departureTime
  arrivalTime := u.arrivalTime.getD r.arrivalTime
  status := u.status.getD r.status
  availableSeats := u.availableSeats.getD r.availableSeats
  price := u.price.getD r.price
  createdAt := u.createdAt.getD r.createdAt

/-- The in-memory storage engine: one insertion-ordered map per entity
type plus one per-type id counter, each counter initialized to 1 by the
class field initializers. -/
structure MemStorage where
  vendors : NMap Vendor
  routes : NMap Route
  buses : NMap Bus
  trips : NMap Trip
  customers : NMap Customer
  bookings : NMap Booking
  payments : NMap Payment
  vendorId : Nat
  routeId : Nat
  busId : Nat
  tripId : Nat
  customerId : Nat
  bookingId : Nat
  paymentId : Nat
deriving DecidableEq

namespace MemStorage

/-- The storage object right after field initialization: empty maps and
all counters at 1. The constructor then seeds the John vendor, see init. -/
def empty : MemStorage where
  vendors := []
  routes := []
  buses := []
  trips := []
  customers := []
  bookings := []
  payments := []
  vendorId := 1
  routeId := 1
  busId := 1
  tripId := 1
  customerId := 1
  bookingId := 1
  paymentId := 1

def getVendor (s : MemStorage) (id : Nat) : Option Vendor :=
  s.vendors.get id

def getVendorByUsername (s : MemStorage) (username : String) : Option Vendor :=
  (s.vendors.values).find? (fun v => v.username == username)

/-- createVendor: assign the next vendor id, stamp the creation time,
store and return the new record. The now argument stands for the Date
value taken at the call. -/
def createVendor (s : MemStorage) (v : InsertVendor) (now : Int) :
    Vendor × MemStorage :=
  let id := s.vendorId
  let newVendor : Vendor :=
    { id := id, username := v.username, password := v.password, name := v.name
      email := v.email, phone := v.phone, companyName := v.companyName
      address := v.address, city := v.city, profileImage := v.profileImage
      createdAt := now }
  (newVendor, { s with vendors := s.vendors.set id newVendor, vendorId := id + 1 })

def updateVendor (s : MemStorage) (id : Nat) (updates : VendorPatch) :
    Option Vendor × MemStorage :=
  match s.vendors.get id with
  | none => (none, s)
  | some vendor =>
    let updatedVendor := vendor.merge updates
    (some updatedVendor, { s with vendors := s.vendors.set id updatedVendor })

def getRoute (s : MemStorage) (id : Nat) : Option Route :=
  s.routes.get id

def getRoutesByVendor (s : MemStorage) (vendorId : Nat) : List Route :=
  (s.routes.values).filter (fun r => r.vendorId == vendorId)

def createRoute (s : MemStorage) (r : InsertRoute) (now : Int) :
    Route × MemStorage :=
  let id := s.routeId
  let newRoute : Route :=
    { id := id, vendorId := r.vendorId, origin := r.origin
      destination := r.destination, distance := r.distance
      duration := r.duration, price := r.price, isActive := r.isActive
      hasStops := r.hasStops, createdAt := now }
  (newRoute, { s with routes := s.routes.set id newRoute, routeId := id + 1 })

def updateRoute (s : MemStorage) (id : Nat) (updates : RoutePatch) :
    Option Route × MemStorage :=
  match s.routes.get id with
  | none => (none, s)
  | some route =>
    let updatedRoute := route.merge updates
    (some updatedRoute, { s with routes := s.routes.set id updatedRoute })

def deleteRoute (s : MemStorage) (id : Nat) : Bool × MemStorage :=
  (s.routes.hasKey id, { s with routes := s.routes.del id })

def getBus (s : MemStorage) (id : Nat) : Option Bus :=
  s.buses.get id

def getBusesByVendor (s : MemStorage) (vendorId : Nat) : List Bus :=
  (s.buses.values).filter (fun b => b.vendorId == vendorId)

def createBus (s : MemStorage) (b : InsertBus) (now : Int) :
    Bus × MemStorage :=
  let id := s.busId
  let newBus : Bus :=
    { id := id, vendorId := b.vendorId, name := b.name
      registrationNumber := b.registrationNumber, capacity := b.capacity
      type := b.type, isActive := b.isActive, createdAt := now }
  (newBus, { s with buses := s.buses.set id newBus, busId := id + 1 })

def updateBus (s : MemStorage) (id : Nat) (updates : BusPatch) :
    Option Bus × MemStorage :=
  match s.buses.get id with
  | none => (none, s)
  | some bus =>
    let updatedBus := bus.merge updates
    (some updatedBus, { s with buses := s.buses.set id updatedBus })

def deleteBus (s : MemStorage) (id : Nat) : Bool × MemStorage :=
  (s.buses.hasKey id, { s with buses := s.buses.del id })

def getTrip (s : MemStorage) (id : Nat) : Option Trip :=
  s.trips.get id

def getTripsByVendor (s : MemStorage) (vendorId : Nat) : List Trip :=
  (s.trips.values).filter (fun t => t.vendorId == vendorId)

/-- Relation used to model the ascending stable sort on departure time. -/
def depLe (a b : Trip) : Prop := a.departureTime ≤ b.departureTime

instance : DecidableRel depLe := fun a b => Int.decLe a.departureTime b.departureTime

instance : IsTotal Trip depLe := ⟨fun a b => Int.le_total a.departureTime b.departureTime⟩

instance : IsTrans Trip depLe := ⟨fun _ _ _ h1 h2 => Int.le_trans h1 h2⟩

/-- getUpcomingTripsByVendor: trips of the vendor departing strictly
after now, stable-sorted ascending by departure time, first limit kept.
The limit defaults to 5 at the call sites that omit it. -/
def getUpcomingTripsByVendor (s : MemStorage) (vendorId : Nat) (limit : Nat)
    (now : Int) : List Trip :=
  (((s.trips.values).filter
      (fun t => t.vendorId == vendorId && decide (now < t.departureTime))).insertionSort
    depLe).take limit

def createTrip (s : MemStorage) (t : InsertTrip) (now : Int) :
    Trip × MemStorage :=
  let id := s.tripId
  let newTrip : Trip :=
    { id := id, vendorId := t.vendorId, routeId := t.routeId, busId := t.busId
      departureTime := t.departureTime, arrivalTime := t.arrivalTime
      status := t.status, availableSeats := t.availableSeats, price := t.price
      createdAt := now }
  (newTrip, { s with trips := s.trips.set id newTrip, tripId := id + 1 })

def updateTrip (s : MemStorage) (id : Nat) (updates : TripPatch) :
    Option Trip × MemStorage :=
  match s.trips.get id with
  | none => (none, s)
  | some trip =>
    let updatedTrip := trip.merge updates
    (some updatedTrip, { s with trips := s.trips.set id updatedTrip })

def deleteTrip (s : MemStorage) (id : Nat) : Bool × MemStorage :=
  (s.trips.hasKey id, { s with trips := s.trips.del id })

def getCustomer (s : MemStorage) (id : Nat) : Option Customer :=
  s.customers.get id

def getCustomerByEmail (s : MemStorage) (email : String) : Option Customer :=
  (s.customers.values).find? (fun c => c.email == email)

def createCustomer (s : MemStorage) (c : InsertCustomer) (now : Int) :
    Customer × MemStorage :=
  let id := s.customerId
  let newCustomer : Customer :=
    { id := id, name := c.name, email := c.email, phone := c.phone
      createdAt := now }
  (newCustomer,
    { s with customers := s.customers.set id newCustomer, customerId := id + 1 })

def getBooking (s : MemStorage) (id : Nat) : Option Booking :=
  s.bookings.get id

def getBookingsByVendor (s : MemStorage) (vendorId : Nat) : List Booking :=
  (s.bookings.values).filter (fun b => b.vendorId == vendorId)

/-- Relation used to model the descending stable sort on booking date. -/
def bookingDateGe (a b : Booking) : Prop := b.bookingDate ≤ a.bookingDate

instance : DecidableRel bookingDateGe := fun a b => Int.decLe b.bookingDate a.bookingDate

instance : IsTotal Booking bookingDateGe := ⟨fun a b => Int.le_total b.bookingDate a.bookingDate⟩

instance : IsTrans Booking bookingDateGe := ⟨fun _ _ _ h1 h2 => Int.le_trans h2 h1⟩

/-- getRecentBookingsByVendor: the bookings of the vendor stable-sorted
descending by booking date, first limit kept. The limit defaults to 5 at
the call sites that omit it. -/
def getRecentBookingsByVendor (s : MemStorage) (vendorId : Nat) (limit : Nat) :
    List Booking :=
  (((s.bookings.values).filter (fun b => b.vendorId == vendorId)).insertionSort
    bookingDateGe).take limit

def createBooking (s : MemStorage) (b : InsertBooking) (now : Int) :
    Booking × MemStorage :=
  let id := s.bookingId
  let newBooking : Booking :=
    { id := id, tripId := b.tripId, customerId := b.customerId
      vendorId := b.vendorId, seatCount := b.seatCount, status := b.status
      totalPrice := b.totalPrice, bookingDate := b.bookingDate
      createdAt := now }
  (newBooking,
    { s with bookings := s.bookings.set id newBooking, bookingId := id + 1 })

/-- updateBookingStatus: spread the stored booking and replace only the
status field with the supplied string, with no membership check of the
string against the lifecycle values. -/
def updateBookingStatus (s : MemStorage) (id : Nat) (status : String) :
    Option Booking × MemStorage :=
  match s.bookings.get id with
  | none => (none, s)
  | some booking =>
    let updatedBooking := { booking with status := status }
    (some updatedBooking, { s with bookings := s.bookings.set id updatedBooking })

def getPayment (s : MemStorage) (id : Nat) : Option Payment :=
  s.payments.get id

def getPaymentsByVendor (s : MemStorage) (vendorId : Nat) : List Payment :=
  (s.payments.values).filter (fun p => p.vendorId == vendorId)

def createPayment (s : MemStorage) (p : InsertPayment) (now : Int) :
    Payment × MemStorage :=
  let id := s.paymentId
  let newPayment : Payment :=
    { id := id, bookingId := p.bookingId, vendorId := p.vendorId
      amount := p.amount, paymentMethod := p.paymentMethod, status := p.status
      transactionId := p.transactionId, paymentDate := p.paymentDate
      createdAt := now }
  (newPayment,
    { s with payments := s.payments.set id newPayment, paymentId := id + 1 })

/-- updatePaymentStatus: spread the stored payment and replace only the
status field with the supplied string, with no membership check. -/
def updatePaymentStatus (s : MemStorage) (id : Nat) (status : String) :
    Option Payment × MemStorage :=
  match s.payments.get id with
  | none => (none, s)
  | some payment =>
    let updatedPayment := { payment with status := status }
    (some updatedPayment, { s with payments := s.payments.set id updatedPayment })

end MemStorage

structure PercentChanges where
  passengers : ℚ
  trips : ℚ
  revenue : ℚ
  bookings : ℚ
deriving DecidableEq

structure DashboardStats where
  totalPassengers : Int
  activeTrips : Nat
  revenue : ℚ
  bookings : Nat
  percentChanges : PercentChanges
deriving DecidableEq

/-- getDashboardStats: aggregates over the stored collections for one
vendor. The percent-change block is the hardcoded sample constants of the
source. -/
def MemStorage.getDashboardStats (s : MemStorage) (vendorId : Nat) (now : Int) :
    DashboardStats :=
  let vendorBookings := s.getBookingsByVendor vendorId
  let activeTrips := (s.trips.values).filter
    (fun t => t.vendorId == vendorId && decide (t.departureTime ≤ now)
      && decide (now ≤ t.arrivalTime))
  let totalPassengers := vendorBookings.foldl (fun sum b => sum + b.seatCount) 0
  let vendorPayments := (s.payments.values).filter
    (fun p => p.vendorId == vendorId && p.status == "completed")
  let revenue := vendorPayments.foldl (fun sum p => sum + p.amount) 0
  { totalPassengers := totalPassengers
    activeTrips := activeTrips.length
    revenue := revenue
    bookings := vendorBookings.length
    percentChanges :=
      { passengers := 12, trips := 5, revenue := 8.2, bookings := -2.3 } }

/-- The seeded vendor record of the MemStorage constructor. -/
def johnUser : InsertVendor where
  username := "John"
  password := "$2b$10$nTqRMgskP5V/hZFDG2QDee/EI6e3UgXN2fE.wSMCA/wYeBUeN0B.e"
  name := "John Doe"
  email := "john@tiyende.co.zm"
  phone := some "+260977123456"
  companyName := some "Power Tools Bus Service"
  address := some "45 Independence Ave"
  city := some "Lusaka"
  profileImage := some "https://images.unsplash.com/photo-1472099645785-5658abf4ff4e?ixlib=rb-1.2.1&ixid=eyJhcHBfaWQiOjEyMDd9&auto=format&fit=facearea&facepad=2&w=256&h=256&q=80"

/-- The state produced by the MemStorage constructor: field initializers
followed by the seeding createVendor call for the John vendor, stamped at
construction time now0. -/
def MemStorage.init (now0 : Int) : MemStorage :=
  (MemStorage.empty.createVendor johnUser now0).2

/-! The HTTP API layer. Each handler below is the body of the
corresponding authenticated Express route, with the session identity
passed as userId. Responses are reduced to their status and JSON body. -/

/-- Outcome of a handler: 200 with a record, 200 with an undefined body,
201 created, 204 no content, 400 bad request, or 404 not found. -/
inductive ApiResponse (α : Type) where
  | ok (body : α)
  | okEmpty
  | created (body : α)
  | noContent
  | badRequest (message : String)
  | notFound (message : String)
deriving DecidableEq

/-- JS falsiness of the status field extracted from the request body:
an absent status or the empty string is falsy, every other string is
truthy. -/
def strFalsy : Option String → Bool
  | none => true
  | some st => st.isEmpty

/-- GET api routes id: 404 when absent or when the owning vendor differs
from the session identity, 200 with the record otherwise. -/
def getRouteHandler (s : MemStorage) (userId : Nat) (routeId : Nat) :
    ApiResponse Route :=
  match s.getRoute routeId with
  | none => .notFound "Route not found"
  | some route =>
    if route.vendorId = userId then .ok route
    else .notFound "Route not found"

/-- POST api routes: the request body with the session vendor id injected
is parsed by the insert schema and stored; 201 with the created record. -/
def postRouteHandler (s : MemStorage) (userId : Nat) (body : InsertRoute)
    (now : Int) : ApiResponse Route × MemStorage :=
  let routeData : InsertRoute := { body with vendorId := userId }
  let res := s.createRoute routeData now
  (.created res.1, res.2)

/-- PATCH api routes id: 404 when absent or not owned, otherwise the raw
request body is handed to updateRoute and the merged record returned. -/
def patchRouteHandler (s : MemStorage) (userId : Nat) (routeId : Nat)
    (body : RoutePatch) : ApiResponse Route × MemStorage :=
  match s.getRoute routeId with
  | none => (.notFound "Route not found", s)
  | some route =>
    if route.vendorId = userId then
      let res := s.updateRoute routeId body
      (match res.1 with
        | some updated => .ok updated
        | none => .okEmpty, res.2)
    else (.notFound "Route not found", s)

/-- DELETE api routes id: 404 when absent or not owned, otherwise the
record is deleted and 204 returned. -/
def deleteRouteHandler (s : MemStorage) (userId : Nat) (routeId : Nat) :
    ApiResponse Route × MemStorage :=
  match s.getRoute routeId with
  | none => (.notFound "Route not found", s)
  | some route =>
    if route.vendorId = userId then
      (.noContent, (s.deleteRoute routeId).2)
    else (.notFound "Route not found", s)

/-- PATCH api buses id, mirroring the route handler. -/
def patchBusHandler (s : MemStorage) (userId : Nat) (busId : Nat)
    (body : BusPatch) : ApiResponse Bus × MemStorage :=
  match s.getBus busId with
  | none => (.notFound "Bus not found", s)
  | some bus =>
    if bus.vendorId = userId then
      let res := s.updateBus busId body
      (match res.1 with
        | some updated => .ok updated
        | none => .okEmpty, res.2)
    else (.notFound "Bus not found", s)

/-- DELETE api buses id. -/
def deleteBusHandler (s : MemStorage) (userId : Nat) (busId : Nat) :
    ApiResponse Bus × MemStorage :=
  match s.getBus busId with
  | none => (.notFound "Bus not found", s)
  | some bus =>
    if bus.vendorId = userId then
      (.noContent, (s.deleteBus busId).2)
    else (.notFound "Bus not found", s)

/-- POST api trips: the body with the session vendor id injected is
parsed by insertTripSchema, which checks field shape only and contains no
comparison between arrivalTime and departureTime, then stored; 201 with
the created record. -/
def postTripHandler (s : MemStorage) (userId : Nat) (body : InsertTrip)
    (now : Int) : ApiResponse Trip × MemStorage :=
  let tripData : InsertTrip := { body with vendorId := userId }
  let res := s.createTrip tripData now
  (.created res.1, res.2)

/-- PATCH api trips id. -/
def patchTripHandler (s : MemStorage) (userId : Nat) (tripId : Nat)
    (body : TripPatch) : ApiResponse Trip × MemStorage :=
  match s.getTrip tripId with
  | none => (.notFound "Trip not found", s)
  | some trip =>
    if trip.vendorId = userId then
      let res := s.updateTrip tripId body
      (match res.1 with
        | some updated => .ok updated
        | none => .okEmpty, res.2)
    else (.notFound "Trip not found", s)

/-- DELETE api trips id. -/
def deleteTripHandler (s : MemStorage) (userId : Nat) (tripId : Nat) :
    ApiResponse Trip × MemStorage :=
  match s.getTrip tripId with
  | none => (.notFound "Trip not found", s)
  | some trip =>
    if trip.vendorId = userId then
      (.noContent, (s.deleteTrip tripId).2)
    else (.notFound "Trip not found", s)

/-- PATCH api bookings id status: 404 when absent or not owned; 400 when
the status field of the body is falsy; otherwise the status string is
stored as given. -/
def patchBookingStatusHandler (s : MemStorage) (userId : Nat)
    (bookingId : Nat) (status : Option String) :
    ApiResponse Booking × MemStorage :=
  match s.getBooking bookingId with
  | none => (.notFound "Booking not found", s)
  | some booking =>
    if booking.vendorId = userId then
      if strFalsy status then (.badRequest "Status is required", s)
      else
        match status with
        | none => (.badRequest "Status is required", s)
        | some st =>
          let res := s.updateBookingStatus bookingId st
          (match res.1 with
            | some updated => .ok updated
            | none => .okEmpty, res.2)
    else (.notFound "Booking not found", s)

/-- PATCH api payments id status, mirroring the booking status handler. -/
def patchPaymentStatusHandler (s : MemStorage) (userId : Nat)
    (paymentId : Nat) (status : Option String) :
    ApiResponse Payment × MemStorage :=
  match s.getPayment paymentId with
  | none => (.notFound "Payment not found", s)
  | some payment =>
    if payment.vendorId = userId then
      if strFalsy status then (.badRequest "Status is required", s)
      else
        match status with
        | none => (.badRequest "Status is required", s)
        | some st =>
          let res := s.updatePaymentStatus paymentId st
          (match res.1 with
            | some updated => .ok updated
            | none => .okEmpty, res.2)
    else (.notFound "Payment not found", s)

/-! Operation language over the storage engine: one constructor per
mutating IStorage method, used to quantify over arbitrary sequences of
create, update and delete calls. Each create carries the timestamp at
which the call happens. -/

inductive StOp where
  | createVendor (v : InsertVendor) (now : Int)
  | updateVendor (id : Nat) (u : VendorPatch)
  | createRoute (r : InsertRoute) (now : Int)
  | updateRoute (id : Nat) (u : RoutePatch)
  | deleteRoute (id : Nat)
  | createBus (b : InsertBus) (now : Int)
  | updateBus (id : Nat) (u : BusPatch)
  | deleteBus (id : Nat)
  | createTrip (t : InsertTrip) (now : Int)
  | updateTrip (id : Nat) (u : TripPatch)
  | deleteTrip (id : Nat)
  | createCustomer (c : InsertCustomer) (now : Int)
  | createBooking (b : InsertBooking) (now : Int)
  | updateBookingStatus (id : Nat) (st : String)
  | createPayment (p : InsertPayment) (now : Int)
  | updatePaymentStatus (id : Nat) (st : String)

/-- State transition of one storage call, discarding the returned value. -/
def stepOp (s : MemStorage) : StOp → MemStorage
  | .createVendor v now => (s.createVendor v now).2
  | .updateVendor id u => (s.updateVendor id u).2
  | .createRoute r now => (s.createRoute r now).2
  | .updateRoute id u => (s.updateRoute id u).2
  | .deleteRoute id => (s.deleteRoute id).2
  | .createBus b now => (s.createBus b now).2
  | .updateBus id u => (s.updateBus id u).2
  | .deleteBus id => (s.deleteBus id).2
  | .createTrip t now => (s.createTrip t now).2
  | .updateTrip id u => (s.updateTrip id u).2
  | .deleteTrip id => (s.deleteTrip id).2
  | .createCustomer c now => (s.createCustomer c now).2
  | .createBooking b now => (s.createBooking b now).2
  | .updateBookingStatus id st => (s.updateBookingStatus id st).2
  | .createPayment p now => (s.createPayment p now).2
  | .updatePaymentStatus id st => (s.updatePaymentStatus id st).2

/-- Run a sequence of storage calls from a starting state. -/
def runOps (s : MemStorage) : List StOp → MemStorage
  | [] => s
  | op :: ops => runOps (stepOp s op) ops

/-- The seven entity types of the storage engine. -/
inductive EntityTag where
  | vendor | route | bus | trip | customer | booking | payment
deriving DecidableEq

/-- The entity type created by an operation, when it is a create call. -/
def opTag : StOp → Option EntityTag
  | .createVendor _ _ => some .vendor
  | .createRoute _ _ => some .route
  | .createBus _ _ => some .bus
  | .createTrip _ _ => some .trip
  | .createCustomer _ _ => some .customer
  | .createBooking _ _ => some .booking
  | .createPayment _ _ => some .payment
  | _ => none

/-- The per-type id counter of the storage state. -/
def counterOf (s : MemStorage) : EntityTag → Nat
  | .vendor => s.vendorId
  | .route => s.routeId
  | .bus => s.busId
  | .trip => s.tripId
  | .customer => s.customerId
  | .booking => s.bookingId
  | .payment => s.paymentId

/-- The identities assigned, in call order, by the create calls of one
entity type inside a sequence of storage calls. Every create method
assigns the current value of the per-type counter. -/
def createdIds (tag : EntityTag) : MemStorage → List StOp → List Nat
  | _, [] => []
  | s, op :: ops =>
    let rest := createdIds tag (stepOp s op) ops
    if opTag op = some tag then counterOf s tag :: rest else rest

/-- Number of create calls of one entity type in a sequence. -/
def countCreates (tag : EntityTag) (ops : List StOp) : Nat :=
  (ops.filter (fun op => opTag op = some tag)).length

/-! Concrete inputs used by the counterexamples and witnesses below. -/

/-- A plain route creation input for vendor 1. -/
def demoInsertRoute : InsertRoute where
  vendorId := 1
  origin := "Lusaka"
  destination := "Ndola"
  distance := none
  duration := none
  price := 150
  isActive := true
  hasStops := false

/-- A storage holding exactly one route, id 1, created at time 50. -/
def demoRouteStore : MemStorage :=
  (MemStorage.empty.createRoute demoInsertRoute 50).2

/-- An update payload that tries to overwrite the id and the creation
timestamp of a record. -/
def hostilePatch : RoutePatch :=
  { id := some 999, createdAt := some 777 }

/-- A trip creation body whose arrival time lies before its departure
time. -/
def invertedTripBody : InsertTrip where
  vendorId := 0
  routeId := 1
  busId := 1
  departureTime := 100
  arrivalTime := 0
  status := "scheduled"
  availableSeats := 40
  price := 150

/-- The record the storage produces for invertedTripBody when vendor 1
posts it at time 5 against the freshly constructed storage. -/
def invertedTrip : Trip where
  id := 1
  vendorId := 1
  routeId := 1
  busId := 1
  departureTime := 100
  arrivalTime := 0
  status := "scheduled"
  availableSeats := 40
  price := 150
  createdAt := 5

/-- A booking creation input for vendor 1 with a given booking date. -/
def demoInsertBooking (date : Int) : InsertBooking where
  tripId := 1
  customerId := 1
  vendorId := 1
  seatCount := 1
  status := "pending"
  totalPrice := 100
  bookingDate := date

/-- A storage holding three bookings of vendor 1 with booking dates
10 < 20 < 30, inserted in that order. -/
def demoBookingStore : MemStorage :=
  (((MemStorage.empty.createBooking (demoInsertBooking 10) 10).2.createBooking
      (demoInsertBooking 20) 20).2.createBooking (demoInsertBooking 30) 30).2

/-- A storage holding one trip of vendor 1 departing at time 200. -/
def demoTripStore : MemStorage :=
  (MemStorage.empty.createTrip
    { vendorId := 1, routeId := 1, busId := 1, departureTime := 200
      arrivalTime := 300, status := "scheduled", availableSeats := 40
      price := 150 } 20).2

/-- A storage holding one booking and one payment of vendor 1. -/
def demoStatusStore : MemStorage :=
  ((MemStorage.empty.createBooking (demoInsertBooking 10) 10).2.createPayment
    { bookingId := 1, vendorId := 1, amount := 100, paymentMethod := "cash"
      status := "pending", transactionId := none, paymentDate := 10 } 10).2

/-- The route stored in demoRouteStore. -/
def demoRoute : Route where
  id := 1
  vendorId := 1
  origin := "Lusaka"
  destination := "Ndola"
  distance := none
  duration := none
  price := 150
  isActive := true
  hasStops := false
  createdAt := 50

/-- The trip stored in demoTripStore. -/
def demoTrip : Trip where
  id := 1
  vendorId := 1
  routeId := 1
  busId := 1
  departureTime := 200
  arrivalTime := 300
  status := "scheduled"
  availableSeats := 40
  price := 150
  createdAt := 20

/-- The booking records stored in demoBookingStore and demoStatusStore. -/
def demoBookingAt (id : Nat) (date : Int) : Booking where
  id := id
  tripId := 1
  customerId := 1
  vendorId := 1
  seatCount := 1
  status := "pending"
  totalPrice := 100
  bookingDate := date
  createdAt := date

/-! Shared lemmas about the map model and the operation language. -/

theorem NMap.get_set {α : Type} (m : NMap α) (k : Nat) (v : α) (j : Nat) :
    NMap.get (NMap.set m k v) j = if j = k then some v else NMap.get m j := by
  induction m with
  | nil =>
    by_cases h : j = k
    · simp [NMap.set, NMap.get, h]
    · simp [NMap.set, NMap.get, h, Ne.symm h]
  | cons p ps ih =>
    by_cases hp : p.1 = k
    · by_cases hj : j = k
      · simp [NMap.set, NMap.get, hp, hj]
      · have hpj : p.1 ≠ j := fun hc => (Ne.symm hj) (hp.symm.trans hc)
        simp [NMap.set, NMap.get, hp, hj, Ne.symm hj, hpj]
    · by_cases hpj : p.1 = j
      · have hjk : ¬ j = k := fun h => hp (hpj.trans h)
        simp [NMap.set, NMap.get, hp, hpj, hjk]
      · simp [NMap.set, NMap.get, hp, hpj, ih]

theorem foldl_add_eq_sum {α : Type} {M : Type} [AddCommMonoid M] (f : α → M)
    (l : List α) (a : M) :
    l.foldl (fun acc x => acc + f x) a = a + (l.map f).sum := by
  induction l generalizing a with
  | nil => simp
  | cons x xs ih => simp [ih, add_assoc]

theorem counterOf_stepOp (s : MemStorage) (op : StOp) (tag : EntityTag) :
    counterOf (stepOp s op) tag =
      if opTag op = some tag then counterOf s tag + 1 else counterOf s tag := by
  cases op with
  | createVendor v now =>
    cases tag <;> simp [stepOp, MemStorage.createVendor, counterOf, opTag]
  | updateVendor id u =>
    cases h : s.vendors.get id <;> cases tag <;>
      simp [stepOp, MemStorage.updateVendor, h, counterOf, opTag]
  | createRoute r now =>
    cases tag <;> simp [stepOp, MemStorage.createRoute, counterOf, opTag]
  | updateRoute id u =>
    cases h : s.routes.get id <;> cases tag <;>
      simp [stepOp, MemStorage.updateRoute, h, counterOf, opTag]
  | deleteRoute id =>
    cases tag <;> simp [stepOp, MemStorage.deleteRoute, counterOf, opTag]
  | createBus b now =>
    cases tag <;> simp [stepOp, MemStorage.createBus, counterOf, opTag]
  | updateBus id u =>
    cases h : s.buses.get id <;> cases tag <;>
      simp [stepOp, MemStorage.updateBus, h, counterOf, opTag]
  | deleteBus id =>
    cases tag <;> simp [stepOp, MemStorage.deleteBus, counterOf, opTag]
  | createTrip t now =>
    cases tag <;> simp [stepOp, MemStorage.createTrip, counterOf, opTag]
  | updateTrip id u =>
    cases h : s.trips.get id <;> cases tag <;>
      simp [stepOp, MemStorage.updateTrip, h, counterOf, opTag]
  | deleteTrip id =>
    cases tag <;> simp [stepOp, MemStorage.deleteTrip, counterOf, opTag]
  | createCustomer c now =>
    cases tag <;> simp [stepOp, MemStorage.createCustomer, counterOf, opTag]
  | createBooking b now =>
    cases tag <;> simp [stepOp, MemStorage.createBooking, counterOf, opTag]
  | updateBookingStatus id st =>
    cases h : s.bookings.get id <;> cases tag <;>
      simp [stepOp, MemStorage.updateBookingStatus, h, counterOf, opTag]
  | createPayment p now =>
    cases tag <;> simp [stepOp, MemStorage.createPayment, counterOf, opTag]
  | updatePaymentStatus id st =>
    cases h : s.payments.get id <;> cases tag <;>
      simp [stepOp, MemStorage.updatePaymentStatus, h, counterOf, opTag]

theorem createdIds_eq_range (tag : EntityTag) (ops : List StOp)
    (s : MemStorage) :
    createdIds tag s ops = List.range' (counterOf s tag) (countCreates tag ops) := by
  induction ops generalizing s with
  | nil => simp [createdIds, countCreates]
  | cons op ops ih =>
    by_cases hop : opTag op = some tag
    · simp [createdIds, countCreates, hop, ih, counterOf_stepOp, List.range',
        List.filter_cons]
    · simp [createdIds, countCreates, hop, ih, counterOf_stepOp, List.filter_cons]

theorem counterOf_empty (tag : EntityTag) : counterOf MemStorage.empty tag = 1 := by
  cases tag <;> rfl

theorem vendor1_isSome_stepOp (s : MemStorage) (op : StOp)
    (h : (s.vendors.get 1).isSome = true) :
    ((stepOp s op).vendors.get 1).isSome = true := by
  cases op with
  | createVendor v now =>
    simp only [stepOp, MemStorage.createVendor, NMap.get_set]
    split <;> simp [h]
  | updateVendor id u =>
    cases hg : s.vendors.get id with
    | none => simpa [stepOp, MemStorage.updateVendor, hg] using h
    | some vendor =>
      simp only [stepOp, MemStorage.updateVendor, hg, NMap.get_set]
      split <;> simp [h]
  | updateRoute id u =>
    cases hg : s.routes.get id <;>
      simpa [stepOp, MemStorage.updateRoute, hg] using h
  | updateBus id u =>
    cases hg : s.buses.get id <;>
      simpa [stepOp, MemStorage.updateBus, hg] using h
  | updateTrip id u =>
    cases hg : s.trips.get id <;>
      simpa [stepOp, MemStorage.updateTrip, hg] using h
  | updateBookingStatus id st =>
    cases hg : s.bookings.get id <;>
      simpa [stepOp, MemStorage.updateBookingStatus, hg] using h
  | updatePaymentStatus id st =>
    cases hg : s.payments.get id <;>
      simpa [stepOp, MemStorage.updatePaymentStatus, hg] using h
  | createRoute r now => simpa [stepOp, MemStorage.createRoute] using h
  | deleteRoute id => simpa [stepOp, MemStorage.deleteRoute] using h
  | createBus b now => simpa [stepOp, MemStorage.createBus] using h
  | deleteBus id => simpa [stepOp, MemStorage.deleteBus] using h
  | createTrip t now => simpa [stepOp, MemStorage.createTrip] using h
  | deleteTrip id => simpa [stepOp, MemStorage.deleteTrip] using h
  | createCustomer c now => simpa [stepOp, MemStorage.createCustomer] using h
  | createBooking b now => simpa [stepOp, MemStorage.createBooking] using h
  | createPayment p now => simpa [stepOp, MemStorage.createPayment] using h

theorem vendor1_isSome_runOps (ops : List StOp) (s : MemStorage)
    (h : (s.vendors.get 1).isSome = true) :
    ((runOps s ops).vendors.get 1).isSome = true := by
  induction ops generalizing s with
  | nil => simpa [runOps] using h
  | cons op ops ih => exact ih (stepOp s op) (vendor1_isSome_stepOp s op h)

/-! Claim theorems. -/

/-- C6: for every entity type and every sequence of create, update and
delete storage calls starting from the freshly initialized storage, the
identities handed out by the create calls of that type are exactly
1, 2, 3, ... in order, hence strictly increasing starting at 1 and never
assigned twice, deletions in between notwithstanding. -/
theorem create_ids_strictly_increasing_from_one (ops : List StOp)
    (tag : EntityTag) :
    createdIds tag MemStorage.empty ops = List.range' 1 (countCreates tag ops) ∧
    (createdIds tag MemStorage.empty ops).Pairwise (· < ·) ∧
    (createdIds tag MemStorage.empty ops).Nodup := by
  have h := createdIds_eq_range tag ops MemStorage.empty
  rw [counterOf_empty] at h
  refine ⟨h, ?_, ?_⟩ <;> rw [h]
  · exact List.pairwise_lt_range' 1 _
  · exact List.nodup_range' 1 _ 1

/-- C8: for every entity type, create followed by getById on the assigned
identity returns exactly the stored record, and that record is the input
record extended with the assigned identity and the creation timestamp of
the call, every other field carried over unchanged. -/
theorem create_then_get_roundtrip (s : MemStorage) (now : Int)
    (iv : InsertVendor) (ir : InsertRoute) (ib : InsertBus) (it : InsertTrip)
    (ic : InsertCustomer) (ibk : InsertBooking) (ip : InsertPayment) :
    ((s.createVendor iv now).2.getVendor (s.createVendor iv now).1.id =
        some (s.createVendor iv now).1 ∧
      (s.createVendor iv now).1 =
        { id := s.vendorId, username := iv.username, password := iv.password
          name := iv.name, email := iv.email, phone := iv.phone
          companyName := iv.companyName, address := iv.address, city := iv.city
          profileImage := iv.profileImage, createdAt := now }) ∧
    ((s.createRoute ir now).2.getRoute (s.createRoute ir now).1.id =
        some (s.createRoute ir now).1 ∧
      (s.createRoute ir now).1 =
        { id := s.routeId, vendorId := ir.vendorId, origin := ir.origin
          destination := ir.destination, distance := ir.distance
          duration := ir.duration, price := ir.price, isActive := ir.isActive
          hasStops := ir.hasStops, createdAt := now }) ∧
    ((s.createBus ib now).2.getBus (s.createBus ib now).1.id =
        some (s.createBus ib now).1 ∧
      (s.createBus ib now).1 =
        { id := s.busId, vendorId := ib.vendorId, name := ib.name
          registrationNumber := ib.registrationNumber, capacity := ib.capacity
          type := ib.type, isActive := ib.isActive, createdAt := now }) ∧
    ((s.createTrip it now).2.getTrip (s.createTrip it now).1.id =
        some (s.createTrip it now).1 ∧
      (s.createTrip it now).1 =
        { id := s.tripId, vendorId := it.vendorId, routeId := it.routeId
          busId := it.busId, departureTime := it.departureTime
          arrivalTime := it.arrivalTime, status := it.status
          availableSeats := it.availableSeats, price := it.price
          createdAt := now }) ∧
    ((s.createCustomer ic now).2.getCustomer (s.createCustomer ic now).1.id =
        some (s.createCustomer ic now).1 ∧
      (s.createCustomer ic now).1 =
        { id := s.customerId, name := ic.name, email := ic.email
          phone := ic.phone, createdAt := now }) ∧
    ((s.createBooking ibk now).2.getBooking (s.createBooking ibk now).1.id =
        some (s.createBooking ibk now).1 ∧
      (s.createBooking ibk now).1 =
        { id := s.bookingId, tripId := ibk.tripId, customerId := ibk.customerId
          vendorId := ibk.vendorId, seatCount := ibk.seatCount
          status := ibk.status, totalPrice := ibk.totalPrice
          bookingDate := ibk.bookingDate, createdAt := now }) ∧
    ((s.createPayment ip now).2.getPayment (s.createPayment ip now).1.id =
        some (s.createPayment ip now).1 ∧
      (s.createPayment ip now).1 =
        { id := s.paymentId, bookingId := ip.bookingId, vendorId := ip.vendorId
          amount := ip.amount, paymentMethod := ip.paymentMethod
          status := ip.status, transactionId := ip.transactionId
          paymentDate := ip.paymentDate, createdAt := now }) := by
  refine ⟨⟨?_, rfl⟩, ⟨?_, rfl⟩, ⟨?_, rfl⟩, ⟨?_, rfl⟩, ⟨?_, rfl⟩, ⟨?_, rfl⟩,
    ⟨?_, rfl⟩⟩
  · simp [MemStorage.createVendor, MemStorage.getVendor, NMap.get_set]
  · simp [MemStorage.createRoute, MemStorage.getRoute, NMap.get_set]
  · simp [MemStorage.createBus, MemStorage.getBus, NMap.get_set]
  · simp [MemStorage.createTrip, MemStorage.getTrip, NMap.get_set]
  · simp [MemStorage.createCustomer, MemStorage.getCustomer, NMap.get_set]
  · simp [MemStorage.createBooking, MemStorage.getBooking, NMap.get_set]
  · simp [MemStorage.createPayment, MemStorage.getPayment, NMap.get_set]

/-- C10: the constructor seeds vendor 1 with username John, every state
reachable from the constructed storage through any sequence of storage
calls still holds a vendor under key 1 (no operation deletes vendors),
and the first vendor created on the constructed storage receives
identity 2. -/
theorem storage_seeded_with_john (now0 : Int) :
    ((MemStorage.init now0).vendors.get 1).map Vendor.id = some 1 ∧
    ((MemStorage.init now0).vendors.get 1).map Vendor.username = some "John" ∧
    (∀ ops : List StOp,
      ((runOps (MemStorage.init now0) ops).vendors.get 1).isSome = true) ∧
    (∀ (w : InsertVendor) (now : Int),
      ((MemStorage.init now0).createVendor w now).1.id = 2) := by
  refine ⟨rfl, rfl, ?_, fun w now => rfl⟩
  intro ops
  exact vendor1_isSome_runOps ops _ rfl

/-- C3: the dashboard statistics are, respectively, the sum of the seat
counts of all bookings of the vendor regardless of status, the number of
trips of the vendor whose departure and arrival times bracket the current
time inclusively on both ends, the sum of the amounts of the payments of
the vendor whose status is exactly the completed string, and the total
number of bookings of the vendor. -/
theorem getDashboardStats_spec (s : MemStorage) (v : Nat) (now : Int) :
    (s.getDashboardStats v now).totalPassengers =
      (((s.bookings.values).filter (fun b => decide (b.vendorId = v))).map
        (fun b => b.seatCount)).sum ∧
    (s.getDashboardStats v now).activeTrips =
      ((s.trips.values).filter (fun t =>
        decide (t.vendorId = v ∧ t.departureTime ≤ now ∧
          now ≤ t.arrivalTime))).length ∧
    (s.getDashboardStats v now).revenue =
      (((s.payments.values).filter (fun p =>
        decide (p.vendorId = v ∧ p.status = "completed"))).map
          (fun p => p.amount)).sum ∧
    (s.getDashboardStats v now).bookings =
      ((s.bookings.values).filter (fun b => decide (b.vendorId = v))).length := by
  have hb : (fun (b : Booking) => b.vendorId == v) =
      (fun b => decide (b.vendorId = v)) := by
    funext b; by_cases h : b.vendorId = v <;> simp [h]
  have ht : (fun (t : Trip) => t.vendorId == v && decide (t.departureTime ≤ now)
        && decide (now ≤ t.arrivalTime)) =
      (fun t => decide (t.vendorId = v ∧ t.departureTime ≤ now ∧
        now ≤ t.arrivalTime)) := by
    funext t
    by_cases h1 : t.vendorId = v <;> by_cases h2 : t.departureTime ≤ now <;>
      by_cases h3 : now ≤ t.arrivalTime <;> simp [h1, h2, h3]
  have hp : (fun (p : Payment) => p.vendorId == v && p.status == "completed") =
      (fun p => decide (p.vendorId = v ∧ p.status = "completed")) := by
    funext p
    by_cases h1 : p.vendorId = v <;> by_cases h2 : p.status = "completed" <;>
      simp [h1, h2]
  refine ⟨?_, ?_, ?_, ?_⟩ <;>
    simp [MemStorage.getDashboardStats, MemStorage.getBookingsByVendor,
      hb, ht, hp, foldl_add_eq_sum]

/-- C4: the upcoming-trip query only returns trips of the given vendor
departing strictly after the current time, returns at most limit of them,
and returns them in ascending departure-time order. -/
theorem upcoming_trips_spec (s : MemStorage) (v : Nat) (limit : Nat)
    (now : Int) :
    (∀ t ∈ s.getUpcomingTripsByVendor v limit now,
      t.vendorId = v ∧ now < t.departureTime) ∧
    (s.getUpcomingTripsByVendor v limit now).length ≤ limit ∧
    (s.getUpcomingTripsByVendor v limit now).Pairwise
      (fun a b => a.departureTime ≤ b.departureTime) := by
  unfold MemStorage.getUpcomingTripsByVendor
  refine ⟨?_, ?_, ?_⟩
  · intro t ht
    have h1 : t ∈ (s.trips.values).filter
        (fun t => t.vendorId == v && decide (now < t.departureTime)) :=
      ((List.perm_insertionSort _ _).mem_iff).mp (List.mem_of_mem_take ht)
    have h2 := List.of_mem_filter h1
    simp only [Bool.and_eq_true, beq_iff_eq, decide_eq_true_eq] at h2
    exact h2
  · rw [List.length_take]
    exact min_le_left _ _
  · have hs := List.sorted_insertionSort MemStorage.depLe
      ((s.trips.values).filter
        (fun t => t.vendorId == v && decide (now < t.departureTime)))
    exact (hs.sublist (List.take_sublist _ _)).imp (fun h => h)

/-- C4 witness: at a concrete storage with one stored trip the query is
applied and the returned trip indeed belongs to vendor 1 and departs
after time 100. -/
theorem upcoming_trips_spec_witness :
    demoTrip.vendorId = 1 ∧ (100 : Int) < demoTrip.departureTime :=
  (upcoming_trips_spec demoTripStore 1 5 100).1 demoTrip (by
    have h : demoTripStore.getUpcomingTripsByVendor 1 5 100 = [demoTrip] := rfl
    rw [h]
    exact List.mem_singleton.mpr rfl)

/-- C5: the recent-booking query only returns bookings of the given
vendor, returns at most limit of them, returns them in descending
booking-date order, and on the concrete scenario of three bookings with
dates 10 < 20 < 30 and limit 2 it returns the date-30 booking followed by
the date-20 booking. -/
theorem recent_bookings_spec :
    (∀ (s : MemStorage) (v : Nat) (limit : Nat),
      (∀ b ∈ s.getRecentBookingsByVendor v limit, b.vendorId = v) ∧
      (s.getRecentBookingsByVendor v limit).length ≤ limit ∧
      (s.getRecentBookingsByVendor v limit).Pairwise
        (fun a b => b.bookingDate ≤ a.bookingDate)) ∧
    demoBookingStore.getRecentBookingsByVendor 1 2 =
      [demoBookingAt 3 30, demoBookingAt 2 20] := by
  constructor
  · intro s v limit
    unfold MemStorage.getRecentBookingsByVendor
    refine ⟨?_, ?_, ?_⟩
    · intro b hb
      have h1 : b ∈ (s.bookings.values).filter (fun b => b.vendorId == v) :=
        ((List.perm_insertionSort _ _).mem_iff).mp (List.mem_of_mem_take hb)
      have h2 := List.of_mem_filter h1
      simpa using h2
    · rw [List.length_take]
      exact min_le_left _ _
    · have hs := List.sorted_insertionSort MemStorage.bookingDateGe
        ((s.bookings.values).filter (fun b => b.vendorId == v))
      exact (hs.sublist (List.take_sublist _ _)).imp (fun h => h)
  · rfl

/-- C5 witness: the query of the scenario is applied at the concrete
storage and its first returned booking belongs to vendor 1. -/
theorem recent_bookings_spec_witness : (demoBookingAt 3 30).vendorId = 1 :=
  (recent_bookings_spec.1 demoBookingStore 1 2).1 (demoBookingAt 3 30) (by
    have h : demoBookingStore.getRecentBookingsByVendor 1 2 =
        [demoBookingAt 3 30, demoBookingAt 2 20] := rfl
    rw [h]
    exact List.mem_cons_self _ _)

/-- C7: for every vendor-scoped resource handler that fetches a record by
id, the absent case and the foreign-owner case return the one identical
404 response value, the state is left untouched, and a response other
than that 404 implies the record exists and is owned by the caller; in
particular a foreign record is never contained in a success response.
The handlers covered are the ones present in the route table: read-one
for routes, update and delete for routes, buses and trips, and the status
updates for bookings and payments. -/
theorem ownership_isolation_404 :
    (∀ (s : MemStorage) (uid id : Nat),
      ((s.getRoute id).all (fun r => r.vendorId != uid) = true →
        getRouteHandler s uid id = .notFound "Route not found") ∧
      (∀ r, getRouteHandler s uid id = .ok r →
        s.getRoute id = some r ∧ r.vendorId = uid)) ∧
    (∀ (s : MemStorage) (uid id : Nat) (u : RoutePatch),
      ((s.getRoute id).all (fun r => r.vendorId != uid) = true →
        (patchRouteHandler s uid id u).1 = .notFound "Route not found" ∧
        (patchRouteHandler s uid id u).2 = s) ∧
      ((patchRouteHandler s uid id u).1 ≠ .notFound "Route not found" →
        (s.getRoute id).any (fun r => r.vendorId == uid) = true)) ∧
    (∀ (s : MemStorage) (uid id : Nat),
      ((s.getRoute id).all (fun r => r.vendorId != uid) = true →
        (deleteRouteHandler s uid id).1 = .notFound "Route not found" ∧
        (deleteRouteHandler s uid id).2 = s) ∧
      ((deleteRouteHandler s uid id).1 ≠ .notFound "Route not found" →
        (s.getRoute id).any (fun r => r.vendorId == uid) = true)) ∧
    (∀ (s : MemStorage) (uid id : Nat) (u : BusPatch),
      ((s.getBus id).all (fun r => r.vendorId != uid) = true →
        (patchBusHandler s uid id u).1 = .notFound "Bus not found" ∧
        (patchBusHandler s uid id u).2 = s) ∧
      ((patchBusHandler s uid id u).1 ≠ .notFound "Bus not found" →
        (s.getBus id).any (fun r => r.vendorId == uid) = true)) ∧
    (∀ (s : MemStorage) (uid id : Nat),
      ((s.getBus id).all (fun r => r.vendorId != uid) = true →
        (deleteBusHandler s uid id).1 = .notFound "Bus not found" ∧
        (deleteBusHandler s uid id).2 = s) ∧
      ((deleteBusHandler s uid id).1 ≠ .notFound "Bus not found" →
        (s.getBus id).any (fun r => r.vendorId == uid) = true)) ∧
    (∀ (s : MemStorage) (uid id : Nat) (u : TripPatch),
      ((s.getTrip id).all (fun r => r.vendorId != uid) = true →
        (patchTripHandler s uid id u).1 = .notFound "Trip not found" ∧
        (patchTripHandler s uid id u).2 = s) ∧
      ((patchTripHandler s uid id u).1 ≠ .notFound "Trip not found" →
        (s.getTrip id).any (fun r => r.vendorId == uid) = true)) ∧
    (∀ (s : MemStorage) (uid id : Nat),
      ((s.getTrip id).all (fun r => r.vendorId != uid) = true →
        (deleteTripHandler s uid id).1 = .notFound "Trip not found" ∧
        (deleteTripHandler s uid id).2 = s) ∧
      ((deleteTripHandler s uid id).1 ≠ .notFound "Trip not found" →
        (s.getTrip id).any (fun r => r.vendorId == uid) = true)) ∧
    (∀ (s : MemStorage) (uid id : Nat) (st : Option String),
      ((s.getBooking id).all (fun r => r.vendorId != uid) = true →
        (patchBookingStatusHandler s uid id st).1 = .notFound "Booking not found" ∧
        (patchBookingStatusHandler s uid id st).2 = s) ∧
      ((patchBookingStatusHandler s uid id st).1 ≠ .notFound "Booking not found" →
        (s.getBooking id).any (fun r => r.vendorId == uid) = true)) ∧
    (∀ (s : MemStorage) (uid id : Nat) (st : Option String),
      ((s.getPayment id).all (fun r => r.vendorId != uid) = true →
        (patchPaymentStatusHandler s uid id st).1 = .notFound "Payment not found" ∧
        (patchPaymentStatusHandler s uid id st).2 = s) ∧
      ((patchPaymentStatusHandler s uid id st).1 ≠ .notFound "Payment not found" →
        (s.getPayment id).any (fun r => r.vendorId == uid) = true)) := by
  refine ⟨?_, ?_, ?_, ?_, ?_, ?_, ?_, ?_, ?_⟩
  · intro s uid id
    constructor
    · intro h
      cases hg : s.getRoute id with
      | none => simp [getRouteHandler, hg]
      | some r =>
        have hr : r.vendorId ≠ uid := by simpa [hg] using h
        simp [getRouteHandler, hg, hr]
    · intro r hr
      cases hg : s.getRoute id with
      | none => simp [getRouteHandler, hg] at hr
      | some r0 =>
        by_cases ho : r0.vendorId = uid
        · simp [getRouteHandler, hg, ho] at hr
          subst hr
          exact ⟨rfl, ho⟩
        · simp [getRouteHandler, hg, ho] at hr
  · intro s uid id u
    constructor
    · intro h
      cases hg : s.getRoute id with
      | none => simp [patchRouteHandler, hg]
      | some r =>
        have hr : r.vendorId ≠ uid := by simpa [hg] using h
        simp [patchRouteHandler, hg, hr]
    · intro hne
      cases hg : s.getRoute id with
      | none => exact absurd (by simp [patchRouteHandler, hg]) hne
      | some r =>
        by_cases ho : r.vendorId = uid
        · simp [hg, ho]
        · exact absurd (by simp [patchRouteHandler, hg, ho]) hne
  · intro s uid id
    constructor
    · intro h
      cases hg : s.getRoute id with
      | none => simp [deleteRouteHandler, hg]
      | some r =>
        have hr : r.vendorId ≠ uid := by simpa [hg] using h
        simp [deleteRouteHandler, hg, hr]
    · intro hne
      cases hg : s.getRoute id with
      | none => exact absurd (by simp [deleteRouteHandler, hg]) hne
      | some r =>
        by_cases ho : r.vendorId = uid
        · simp [hg, ho]
        · exact absurd (by simp [deleteRouteHandler, hg, ho]) hne
  · intro s uid id u
    constructor
    · intro h
      cases hg : s.getBus id with
      | none => simp [patchBusHandler, hg]
      | some r =>
        have hr : r.vendorId ≠ uid := by simpa [hg] using h
        simp [patchBusHandler, hg, hr]
    · intro hne
      cases hg : s.getBus id with
      | none => exact absurd (by simp [patchBusHandler, hg]) hne
      | some r =>
        by_cases ho : r.vendorId = uid
        · simp [hg, ho]
        · exact absurd (by simp [patchBusHandler, hg, ho]) hne
  · intro s uid id
    constructor
    · intro h
      cases hg : s.getBus id with
      | none => simp [deleteBusHandler, hg]
      | some r =>
        have hr : r.vendorId ≠ uid := by simpa [hg] using h
        simp [deleteBusHandler, hg, hr]
    · intro hne
      cases hg : s.getBus id with
      | none => exact absurd (by simp [deleteBusHandler, hg]) hne
      | some r =>
        by_cases ho : r.vendorId = uid
        · simp [hg, ho]
        · exact absurd (by simp [deleteBusHandler, hg, ho]) hne
  · intro s uid id u
    constructor
    · intro h
      cases hg : s.getTrip id with
      | none => simp [patchTripHandler, hg]
      | some r =>
        have hr : r.vendorId ≠ uid := by simpa [hg] using h
        simp [patchTripHandler, hg, hr]
    · intro hne
      cases hg : s.getTrip id with
      | none => exact absurd (by simp [patchTripHandler, hg]) hne
      | some r =>
        by_cases ho : r.vendorId = uid
        · simp [hg, ho]
        · exact absurd (by simp [patchTripHandler, hg, ho]) hne
  · intro s uid id
    constructor
    · intro h
      cases hg : s.getTrip id with
      | none => simp [deleteTripHandler, hg]
      | some r =>
        have hr : r.vendorId ≠ uid := by simpa [hg] using h
        simp [deleteTripHandler, hg, hr]
    · intro hne
      cases hg : s.getTrip id with
      | none => exact absurd (by simp [deleteTripHandler, hg]) hne
      | some r =>
        by_cases ho : r.vendorId = uid
        · simp [hg, ho]
        · exact absurd (by simp [deleteTripHandler, hg, ho]) hne
  · intro s uid id st
    constructor
    · intro h
      cases hg : s.getBooking id with
      | none => simp [patchBookingStatusHandler, hg]
      | some r =>
        have hr : r.vendorId ≠ uid := by simpa [hg] using h
        simp [patchBookingStatusHandler, hg, hr]
    · intro hne
      cases hg : s.getBooking id with
      | none => exact absurd (by simp [patchBookingStatusHandler, hg]) hne
      | some r =>
        by_cases ho : r.vendorId = uid
        · simp [hg, ho]
        · exact absurd (by simp [patchBookingStatusHandler, hg, ho]) hne
  · intro s uid id st
    constructor
    · intro h
      cases hg : s.getPayment id with
      | none => simp [patchPaymentStatusHandler, hg]
      | some r =>
        have hr : r.vendorId ≠ uid := by simpa [hg] using h
        simp [patchPaymentStatusHandler, hg, hr]
    · intro hne
      cases hg : s.getPayment id with
      | none => exact absurd (by simp [patchPaymentStatusHandler, hg]) hne
      | some r =>
        by_cases ho : r.vendorId = uid
        · simp [hg, ho]
        · exact absurd (by simp [patchPaymentStatusHandler, hg, ho]) hne

/-- C7 witness: vendor 2 requesting the route that vendor 1 owns receives
exactly the not-found response. -/
theorem ownership_isolation_404_witness :
    getRouteHandler demoRouteStore 2 1 = ApiResponse.notFound "Route not found" :=
  (ownership_isolation_404.1 demoRouteStore 2 1).1 (by rfl)

/-- C9: for a booking or payment owned by the caller, the status update
endpoint stores exactly the supplied string whenever it is non-empty,
with no membership check against the lifecycle values and with every
other field of the record unchanged, while a missing or empty status
yields the 400 response and leaves the storage untouched. -/
theorem status_update_stores_any_string :
    (∀ (s : MemStorage) (uid id : Nat) (b : Booking) (st : String),
      s.getBooking id = some b → b.vendorId = uid → st ≠ "" →
      (patchBookingStatusHandler s uid id (some st)).1 =
        .ok { b with status := st } ∧
      (patchBookingStatusHandler s uid id (some st)).2.getBooking id =
        some { b with status := st }) ∧
    (∀ (s : MemStorage) (uid id : Nat) (b : Booking) (st : Option String),
      s.getBooking id = some b → b.vendorId = uid → strFalsy st = true →
      (patchBookingStatusHandler s uid id st).1 =
        .badRequest "Status is required" ∧
      (patchBookingStatusHandler s uid id st).2 = s) ∧
    (∀ (s : MemStorage) (uid id : Nat) (p : Payment) (st : String),
      s.getPayment id = some p → p.vendorId = uid → st ≠ "" →
      (patchPaymentStatusHandler s uid id (some st)).1 =
        .ok { p with status := st } ∧
      (patchPaymentStatusHandler s uid id (some st)).2.getPayment id =
        some { p with status := st }) ∧
    (∀ (s : MemStorage) (uid id : Nat) (p : Payment) (st : Option String),
      s.getPayment id = some p → p.vendorId = uid → strFalsy st = true →
      (patchPaymentStatusHandler s uid id st).1 =
        .badRequest "Status is required" ∧
      (patchPaymentStatusHandler s uid id st).2 = s) := by
  refine ⟨?_, ?_, ?_, ?_⟩
  · intro s uid id b st hg ho hne
    have hg2 : s.bookings.get id = some b := hg
    have hemp : st.isEmpty = false := by
      rw [Bool.eq_false_iff]
      intro hc
      exact hne ((String.isEmpty_iff st).mp hc)
    constructor <;>
      simp [patchBookingStatusHandler, MemStorage.updateBookingStatus,
        MemStorage.getBooking, strFalsy, hg2, ho, hemp, NMap.get_set]
  · intro s uid id b st hg ho hf
    have hg2 : s.bookings.get id = some b := hg
    constructor <;>
      simp [patchBookingStatusHandler, MemStorage.getBooking, hg2, ho, hf]
  · intro s uid id p st hg ho hne
    have hg2 : s.payments.get id = some p := hg
    have hemp : st.isEmpty = false := by
      rw [Bool.eq_false_iff]
      intro hc
      exact hne ((String.isEmpty_iff st).mp hc)
    constructor <;>
      simp [patchPaymentStatusHandler, MemStorage.updatePaymentStatus,
        MemStorage.getPayment, strFalsy, hg2, ho, hemp, NMap.get_set]
  · intro s uid id p st hg ho hf
    have hg2 : s.payments.get id = some p := hg
    constructor <;>
      simp [patchPaymentStatusHandler, MemStorage.getPayment, hg2, ho, hf]

/-- C9 witness: storing a string outside the enumerated lifecycle values
on the concrete booking succeeds and replaces only the status field. -/
theorem status_update_stores_any_string_witness :
    (patchBookingStatusHandler demoStatusStore 1 1 (some "weird-status")).1 =
      ApiResponse.ok { demoBookingAt 1 10 with status := "weird-status" } ∧
    (patchBookingStatusHandler demoStatusStore 1 1 (some "weird-status")).2.getBooking 1 =
      some { demoBookingAt 1 10 with status := "weird-status" } :=
  status_update_stores_any_string.1 demoStatusStore 1 1 (demoBookingAt 1 10)
    "weird-status" rfl rfl (by decide)

/-- C1 counterexample: the claim fails as stated. On the storage holding
route 1 created at time 50, an update payload that carries id and
createdAt keys overwrites both: the stored record afterwards has id 999
and creation timestamp 777 instead of the pre-call values 1 and 50,
because the update methods spread the payload over the record last. -/
theorem update_overwrites_id_createdAt_cex :
    (demoRouteStore.getRoute 1).map Route.id = some 1 ∧
    (demoRouteStore.getRoute 1).map Route.createdAt = some 50 ∧
    ((demoRouteStore.updateRoute 1 hostilePatch).2.getRoute 1).map Route.id =
      some 999 ∧
    ((demoRouteStore.updateRoute 1 hostilePatch).2.getRoute 1).map
      Route.createdAt = some 777 ∧
    (999 : Nat) ≠ 1 ∧ (777 : Int) ≠ 50 :=
  ⟨rfl, rfl, rfl, rfl, by decide, by decide⟩

/-- C1 amended: for Vendor, Route, Bus and Trip, an update on an existing
record preserves the stored identity and creation timestamp provided the
payload carries no id and no createdAt key; payloads carrying those keys
overwrite them, as the counterexample shows. -/
theorem update_preserves_id_createdAt_when_absent :
    (∀ (s : MemStorage) (id : Nat) (u : VendorPatch) (r : Vendor),
      u.id = none → u.createdAt = none → s.getVendor id = some r →
      (s.updateVendor id u).1.map Vendor.id = some r.id ∧
      (s.updateVendor id u).1.map Vendor.createdAt = some r.createdAt ∧
      ((s.updateVendor id u).2.getVendor id).map Vendor.id = some r.id ∧
      ((s.updateVendor id u).2.getVendor id).map Vendor.createdAt =
        some r.createdAt) ∧
    (∀ (s : MemStorage) (id : Nat) (u : RoutePatch) (r : Route),
      u.id = none → u.createdAt = none → s.getRoute id = some r →
      (s.updateRoute id u).1.map Route.id = some r.id ∧
      (s.updateRoute id u).1.map Route.createdAt = some r.createdAt ∧
      ((s.updateRoute id u).2.getRoute id).map Route.id = some r.id ∧
      ((s.updateRoute id u).2.getRoute id).map Route.createdAt =
        some r.createdAt) ∧
    (∀ (s : MemStorage) (id : Nat) (u : BusPatch) (r : Bus),
      u.id = none → u.createdAt = none → s.getBus id = some r →
      (s.updateBus id u).1.map Bus.id = some r.id ∧
      (s.updateBus id u).1.map Bus.createdAt = some r.createdAt ∧
      ((s.updateBus id u).2.getBus id).map Bus.id = some r.id ∧
      ((s.updateBus id u).2.getBus id).map Bus.createdAt =
        some r.createdAt) ∧
    (∀ (s : MemStorage) (id : Nat) (u : TripPatch) (r : Trip),
      u.id = none → u.createdAt = none → s.getTrip id = some r →
      (s.updateTrip id u).1.map Trip.id = some r.id ∧
      (s.updateTrip id u).1.map Trip.createdAt = some r.createdAt ∧
      ((s.updateTrip id u).2.getTrip id).map Trip.id = some r.id ∧
      ((s.updateTrip id u).2.getTrip id).map Trip.createdAt =
        some r.createdAt) := by
  refine ⟨?_, ?_, ?_, ?_⟩
  · intro s id u r hid hca hg
    have hg2 : s.vendors.get id = some r := hg
    refine ⟨?_, ?_, ?_, ?_⟩ <;>
      simp [MemStorage.updateVendor, MemStorage.getVendor, hg2, Vendor.merge,
        hid, hca, NMap.get_set]
  · intro s id u r hid hca hg
    have hg2 : s.routes.get id = some r := hg
    refine ⟨?_, ?_, ?_, ?_⟩ <;>
      simp [MemStorage.updateRoute, MemStorage.getRoute, hg2, Route.merge,
        hid, hca, NMap.get_set]
  · intro s id u r hid hca hg
    have hg2 : s.buses.get id = some r := hg
    refine ⟨?_, ?_, ?_, ?_⟩ <;>
      simp [MemStorage.updateBus, MemStorage.getBus, hg2, Bus.merge,
        hid, hca, NMap.get_set]
  · intro s id u r hid hca hg
    have hg2 : s.trips.get id = some r := hg
    refine ⟨?_, ?_, ?_, ?_⟩ <;>
      simp [MemStorage.updateTrip, MemStorage.getTrip, hg2, Trip.merge,
        hid, hca, NMap.get_set]

/-- C1 amended witness: an update payload touching only the origin field
of the concrete route leaves the stored id 1 and creation timestamp 50
in place. -/
theorem update_preserves_id_createdAt_when_absent_witness :
    (demoRouteStore.updateRoute 1 { origin := some "Kitwe" }).1.map Route.id =
      some 1 ∧
    (demoRouteStore.updateRoute 1 { origin := some "Kitwe" }).1.map
      Route.createdAt = some 50 ∧
    ((demoRouteStore.updateRoute 1 { origin := some "Kitwe" }).2.getRoute 1).map
      Route.id = some 1 ∧
    ((demoRouteStore.updateRoute 1 { origin := some "Kitwe" }).2.getRoute 1).map
      Route.createdAt = some 50 :=
  update_preserves_id_createdAt_when_absent.2.1 demoRouteStore 1
    { origin := some "Kitwe" } demoRoute rfl rfl rfl

/-- C2 counterexample: the claim fails as stated. Against the freshly
constructed storage, vendor 1 posting a trip body whose arrival time 0
lies before its departure time 100 is not rejected: the handler answers
201 created and the trip is stored with the inverted times, because
insertTripSchema contains no comparison between the two timestamps. -/
theorem postTrip_inverted_times_created_cex :
    invertedTripBody.arrivalTime < invertedTripBody.departureTime ∧
    (postTripHandler (MemStorage.init 0) 1 invertedTripBody 5).1 =
      ApiResponse.created invertedTrip ∧
    (postTripHandler (MemStorage.init 0) 1 invertedTripBody 5).2.getTrip 1 =
      some invertedTrip ∧
    invertedTrip.arrivalTime < invertedTrip.departureTime :=
  ⟨by decide, rfl, rfl, by decide⟩

/-- C2 amended: an authenticated trip creation whose body has an arrival
time earlier than its departure time is accepted, not rejected: the
handler returns 201 created with the record carrying the inverted times
and stores it, since schema validation checks field shape only. -/
theorem postTrip_accepts_inverted_times (s : MemStorage) (uid : Nat)
    (body : InsertTrip) (now : Int)
    (_hlt : body.arrivalTime < body.departureTime) :
    (postTripHandler s uid body now).1 = ApiResponse.created
      { id := s.tripId, vendorId := uid, routeId := body.routeId
        busId := body.busId, departureTime := body.departureTime
        arrivalTime := body.arrivalTime, status := body.status
        availableSeats := body.availableSeats, price := body.price
        createdAt := now } ∧
    (postTripHandler s uid body now).2.getTrip s.tripId = some
      { id := s.tripId, vendorId := uid, routeId := body.routeId
        busId := body.busId, departureTime := body.departureTime
        arrivalTime := body.arrivalTime, status := body.status
        availableSeats := body.availableSeats, price := body.price
        createdAt := now } := by
  constructor
  · rfl
  · simp [postTripHandler, MemStorage.createTrip, MemStorage.getTrip,
      NMap.get_set]

/-- C2 amended witness: the concrete inverted-time body is accepted. -/
theorem postTrip_accepts_inverted_times_witness :
    (postTripHandler (MemStorage.init 0) 1 invertedTripBody 5).1 =
      ApiResponse.created invertedTrip ∧
    (postTripHandler (MemStorage.init 0) 1 invertedTripBody 5).2.getTrip 1 =
      some invertedTrip :=
  postTrip_accepts_inverted_times (MemStorage.init 0) 1 invertedTripBody 5
    (by decide)

end Tiyende
